import Mathlib

/-!
Verification of the scan-crop region-estimation and interaction geometry.

The development shallowly embeds the pure geometric computations of the
repository over exact rationals: JavaScript numbers are modelled as ℚ,
JavaScript Math.round as the floor-based rounding it implements, and the
external image-manipulation call as an oracle returning an Option.
File and line references point into the repository sources.
-/

namespace ScanCrop

/-- Rectangle value with x, y, width, height, as used throughout the
sources (for example src/unnamed/part_001 line 3 and part_002 lines 6-11). -/
structure Rect where
  x : ℚ
  y : ℚ
  width : ℚ
  height : ℚ
deriving DecidableEq, Repr

/-- Crop rectangle in image pixel space with integer fields, the shape
passed to the external crop operation (originX, originY, width, height). -/
structure CropRect where
  originX : ℤ
  originY : ℤ
  width : ℤ
  height : ℤ
deriving DecidableEq, Repr

/-- JavaScript Math.round: for every finite argument it returns
floor of the argument plus one half. -/
def jsRound (q : ℚ) : ℤ := ⌊q + 1/2⌋

/-- The clamp helper of src/unnamed/part_005 line 55:
Math.max of the lower bound with Math.min of the upper bound and the value. -/
def jsClamp (val lo hi : ℚ) : ℚ := max lo (min hi val)

/-- mapScreenRectToImage of src/unnamed/part_001 lines 5-14: scale each
field by the ratio of destination to source dimension and round. -/
def mapScreenRectToImage (rect : Rect) (screenW screenH imageW imageH : ℚ) : CropRect :=
  let scaleX := imageW / screenW
  let scaleY := imageH / screenH
  { originX := jsRound (rect.x * scaleX)
    originY := jsRound (rect.y * scaleY)
    width := jsRound (rect.width * scaleX)
    height := jsRound (rect.height * scaleY) }

/-- mapPreviewBoxToImageCoords of src/unnamed/part_002 lines 80-96,
the same formula as mapScreenRectToImage. -/
def mapPreviewBoxToImageCoords (previewBox : Rect)
    (previewWidth previewHeight imageWidth imageHeight : ℚ) : CropRect :=
  let scaleX := imageWidth / previewWidth
  let scaleY := imageHeight / previewHeight
  { originX := jsRound (previewBox.x * scaleX)
    originY := jsRound (previewBox.y * scaleY)
    width := jsRound (previewBox.width * scaleX)
    height := jsRound (previewBox.height * scaleY) }

/-- View of an integer crop rectangle as a rational rectangle, used to
feed a mapped rectangle back through the coordinate mapper. -/
def CropRect.toRect (c : CropRect) : Rect :=
  ⟨(c.originX : ℚ), (c.originY : ℚ), (c.width : ℚ), (c.height : ℚ)⟩

/-- Configuration of the fast heuristic estimator
(src/unnamed/part_002 lines 21-25). -/
structure FastOptions where
  verticalBias : ℚ
  widthRatio : ℚ
  heightRatio : ℚ
deriving DecidableEq, Repr

/-- detectQuestionAreaFast of src/unnamed/part_002 lines 18-53: a box of
widthRatio times the width and heightRatio times the height (capped at
100), centered horizontally, vertically centered at verticalBias of the
height, then clamped into the container. -/
def detectQuestionAreaFast (previewWidth previewHeight : ℚ) (o : FastOptions) : Rect :=
  let boxWidth := previewWidth * o.widthRatio
  let boxHeight := min (previewHeight * o.heightRatio) 100
  let boxX := (previewWidth - boxWidth) / 2
  let boxY := previewHeight * o.verticalBias - boxHeight / 2
  let clampedX := max 0 (min boxX (previewWidth - boxWidth))
  let clampedY := max 0 (min boxY (previewHeight - boxHeight))
  ⟨clampedX, clampedY, boxWidth, boxHeight⟩

/-- smoothBoxTransition of src/unnamed/part_002 lines 59-74: if there is
no current box return the new one, otherwise linearly interpolate every
field by the smoothing factor. -/
def smoothBoxTransition (currentBox : Option Rect) (newBox : Rect)
    (smoothingFactor : ℚ) : Rect :=
  match currentBox with
  | none => newBox
  | some c =>
      ⟨c.x + (newBox.x - c.x) * smoothingFactor,
       c.y + (newBox.y - c.y) * smoothingFactor,
       c.width + (newBox.width - c.width) * smoothingFactor,
       c.height + (newBox.height - c.height) * smoothingFactor⟩

/-- isValidBox of src/unnamed/part_002 lines 101-114: nonnegative origin,
strictly positive size, and the box contained in the container. -/
def isValidBox (box : Rect) (containerWidth containerHeight : ℚ) : Bool :=
  decide (0 ≤ box.x) && decide (0 ≤ box.y)
    && decide (0 < box.width) && decide (0 < box.height)
    && decide (box.x + box.width ≤ containerWidth)
    && decide (box.y + box.height ≤ containerHeight)

/-- Unfolding of isValidBox into its six comparisons. -/
theorem isValidBox_eq_true_iff (box : Rect) (cw ch : ℚ) :
    isValidBox box cw ch = true ↔
      0 ≤ box.x ∧ 0 ≤ box.y ∧ 0 < box.width ∧ 0 < box.height
        ∧ box.x + box.width ≤ cw ∧ box.y + box.height ≤ ch := by
  simp [isValidBox, and_assoc]

/-- Claim C10: for a 1000 by 2000 container and the default configuration
(verticalBias 0.18, widthRatio 0.65, heightRatio 0.10, 100 pixel height
cap) the fast estimator returns width 650, height 100, and y 310. -/
theorem detectQuestionAreaFast_default_scenario :
    (detectQuestionAreaFast 1000 2000 ⟨0.18, 0.65, 0.10⟩).width = 650
      ∧ (detectQuestionAreaFast 1000 2000 ⟨0.18, 0.65, 0.10⟩).height = 100
      ∧ (detectQuestionAreaFast 1000 2000 ⟨0.18, 0.65, 0.10⟩).y = 310 := by
  refine ⟨?_, ?_, ?_⟩ <;> norm_num [detectQuestionAreaFast, min_def, max_def]

/-- MIN_BOX_SIZE of src/unnamed/part_003 line 31, the declared minimum
box size of the AutoDetectionBox component. -/
def MIN_BOX_SIZE : ℚ := 80

/-- clampBox of src/unnamed/part_003 lines 90-104, using the constants of
lines 31-33: width is clamped to [MIN_BOX_SIZE, 0.95 of the container
width], height to [MIN_BOX_SIZE, 0.4 of the container height], and the
position is then clamped so the clamped size fits in the container. -/
def clampBox (x y w h containerWidth containerHeight : ℚ) : Rect :=
  let maxWidth := containerWidth * (0.95 : ℚ)
  let maxHeight := containerHeight * (0.4 : ℚ)
  let clampedW := max MIN_BOX_SIZE (min w maxWidth)
  let clampedH := max MIN_BOX_SIZE (min h maxHeight)
  let clampedX := max 0 (min x (containerWidth - clampedW))
  let clampedY := max 0 (min y (containerHeight - clampedH))
  ⟨clampedX, clampedY, clampedW, clampedH⟩

/-- The pan gesture update of src/unnamed/part_003 lines 107-137: the new
position is the gesture-start position plus the cumulative translation,
passed through clampBox; only the position fields are written back, the
width and height shared values are left untouched. -/
def panGestureUpdate (start : Rect) (translationX translationY cw ch : ℚ) : Rect :=
  let clamped := clampBox (start.x + translationX) (start.y + translationY)
    start.width start.height cw ch
  ⟨clamped.x, clamped.y, start.width, start.height⟩

/-- The four corner handles used by both resize implementations. -/
inductive Handle where
  | TL
  | TR
  | BL
  | BR
deriving DecidableEq, Repr

/-- The corner gesture update of src/unnamed/part_003 lines 140-201: each
corner moves its two adjacent edges by the cumulative translation, and
the result is passed through clampBox; all four fields are written back. -/
def cornerGestureUpdate (corner : Handle) (start : Rect)
    (translationX translationY cw ch : ℚ) : Rect :=
  match corner with
  | Handle.TL => clampBox (start.x + translationX) (start.y + translationY)
      (start.width - translationX) (start.height - translationY) cw ch
  | Handle.TR => clampBox start.x (start.y + translationY)
      (start.width + translationX) (start.height - translationY) cw ch
  | Handle.BL => clampBox (start.x + translationX) start.y
      (start.width - translationX) (start.height + translationY) cw ch
  | Handle.BR => clampBox start.x start.y
      (start.width + translationX) (start.height + translationY) cw ch

/-- constrainCropBox of src/unnamed/part_005 lines 58-75: dimensions are
capped at the container (deliberately with no minimum size), then the
position is clamped so the box stays inside the container. -/
def constrainCropBox (box : Rect) (containerWidth containerHeight : ℚ) : Rect :=
  let width := min box.width containerWidth
  let height := min box.height containerHeight
  let x := jsClamp box.x 0 (containerWidth - width)
  let y := jsClamp box.y 0 (containerHeight - height)
  ⟨x, y, width, height⟩

/-- The drag responder update of src/unnamed/part_005 lines 259-284: the
position is the gesture-start position plus the cumulative translation,
clamped per axis so the unchanged width and height stay inside the
container. -/
def dragUpdate (start : Rect) (dx dy containerWidth containerHeight : ℚ) : Rect :=
  ⟨jsClamp (start.x + dx) 0 (containerWidth - start.width),
   jsClamp (start.y + dy) 0 (containerHeight - start.height),
   start.width, start.height⟩

/-- The resize responder update of src/unnamed/part_005 lines 326-388 with
minSize 1: the BR handle clamps the grown sizes into [minSize, distance to
the container edge]; a moving left or top edge (TL, TR, BL) is accepted on
an axis only when it stays at least minSize from the anchor edge and at a
nonnegative coordinate, and otherwise that axis is left unchanged. -/
def resizeUpdate (handle : Handle) (start : Rect)
    (dx dy containerWidth containerHeight : ℚ) : Rect :=
  let minSize : ℚ := 1
  match handle with
  | Handle.BR =>
      ⟨start.x, start.y,
       jsClamp (start.width + dx) minSize (containerWidth - start.x),
       jsClamp (start.height + dy) minSize (containerHeight - start.y)⟩
  | Handle.TR =>
      let newWidth := jsClamp (start.width + dx) minSize (containerWidth - start.x)
      if minSize ≤ start.height - dy ∧ 0 ≤ start.y + dy then
        ⟨start.x, start.y + dy, newWidth, start.height - dy⟩
      else
        ⟨start.x, start.y, newWidth, start.height⟩
  | Handle.BL =>
      let newHeight := jsClamp (start.height + dy) minSize (containerHeight - start.y)
      if minSize ≤ start.width - dx ∧ 0 ≤ start.x + dx then
        ⟨start.x + dx, start.y, start.width - dx, newHeight⟩
      else
        ⟨start.x, start.y, start.width, newHeight⟩
  | Handle.TL =>
      ⟨if minSize ≤ start.width - dx ∧ 0 ≤ start.x + dx then start.x + dx else start.x,
       if minSize ≤ start.height - dy ∧ 0 ≤ start.y + dy then start.y + dy else start.y,
       if minSize ≤ start.width - dx ∧ 0 ≤ start.x + dx then start.width - dx else start.width,
       if minSize ≤ start.height - dy ∧ 0 ≤ start.y + dy then start.height - dy else start.height⟩

/-- Claim C7 (amended): for positive container dimensions, verticalBias in
[0,1], and widthRatio and heightRatio strictly positive and at most 1, the
fast estimator returns a rectangle with positive width and height lying
fully inside the container. The original claim allowed ratio 0, which
yields a zero-width or zero-height rectangle. -/
theorem detectQuestionAreaFast_in_bounds (cw ch vb wr hr : ℚ)
    (hcw : 0 < cw) (hch : 0 < ch) (hvb0 : 0 ≤ vb) (hvb1 : vb ≤ 1)
    (hwr0 : 0 < wr) (hwr1 : wr ≤ 1) (hhr0 : 0 < hr) (hhr1 : hr ≤ 1) :
    isValidBox (detectQuestionAreaFast cw ch ⟨vb, wr, hr⟩) cw ch = true := by
  rw [isValidBox_eq_true_iff]
  simp only [detectQuestionAreaFast]
  have hbw : cw * wr ≤ cw := mul_le_of_le_one_right hcw.le hwr1
  have hbh : min (ch * hr) 100 ≤ ch :=
    le_trans (min_le_left _ _) (mul_le_of_le_one_right hch.le hhr1)
  have hxle : max 0 (min ((cw - cw * wr) / 2) (cw - cw * wr)) ≤ cw - cw * wr :=
    max_le (by linarith) (min_le_right _ _)
  have hyle : max 0 (min (ch * vb - min (ch * hr) 100 / 2) (ch - min (ch * hr) 100))
      ≤ ch - min (ch * hr) 100 :=
    max_le (by linarith) (min_le_right _ _)
  refine ⟨le_max_left _ _, le_max_left _ _, mul_pos hcw hwr0,
    lt_min (mul_pos hch hhr0) (by norm_num), by linarith, by linarith⟩

/-- Claim C7, counterexample: with widthRatio 0 (allowed by the stated
range [0,1]) the fast estimator returns a zero-width rectangle, which
fails the isValidBox predicate of the source. -/
theorem detectQuestionAreaFast_zero_ratio_cex :
    isValidBox (detectQuestionAreaFast 100 100 ⟨0.18, 0, 0.10⟩) 100 100 = false := by
  norm_num [isValidBox, detectQuestionAreaFast]

/-- Witness instantiating detectQuestionAreaFast_in_bounds at a concrete
container and configuration. -/
theorem detectQuestionAreaFast_in_bounds_witness :
    isValidBox (detectQuestionAreaFast 1000 2000 ⟨0.18, 0.65, 0.10⟩) 1000 2000 = true :=
  detectQuestionAreaFast_in_bounds 1000 2000 0.18 0.65 0.10
    (by norm_num) (by norm_num) (by norm_num) (by norm_num)
    (by norm_num) (by norm_num) (by norm_num) (by norm_num)

/-- Claim C9: smoothing with no previous rectangle returns the next
rectangle for any factor in [0,1]; with factor 0 it returns the previous
rectangle; with factor 1 it returns the next rectangle. -/
theorem smoothBoxTransition_endpoints (prev next : Rect) (f : ℚ)
    (hf0 : 0 ≤ f) (hf1 : f ≤ 1) :
    smoothBoxTransition none next f = next
      ∧ smoothBoxTransition (some prev) next 0 = prev
      ∧ smoothBoxTransition (some prev) next 1 = next := by
  refine ⟨rfl, ?_, ?_⟩
  · obtain ⟨px, py, pw, ph⟩ := prev
    obtain ⟨nx, ny, nw, nh⟩ := next
    simp only [smoothBoxTransition, Rect.mk.injEq]
    exact ⟨by ring, by ring, by ring, by ring⟩
  · obtain ⟨px, py, pw, ph⟩ := prev
    obtain ⟨nx, ny, nw, nh⟩ := next
    simp only [smoothBoxTransition, Rect.mk.injEq]
    exact ⟨by ring, by ring, by ring, by ring⟩

/-- Witness instantiating smoothBoxTransition_endpoints at concrete
rectangles and factor one half. -/
theorem smoothBoxTransition_endpoints_witness :
    smoothBoxTransition none ⟨1, 2, 3, 4⟩ (1/2) = ⟨1, 2, 3, 4⟩
      ∧ smoothBoxTransition (some ⟨5, 6, 7, 8⟩) ⟨1, 2, 3, 4⟩ 0 = ⟨5, 6, 7, 8⟩
      ∧ smoothBoxTransition (some ⟨5, 6, 7, 8⟩) ⟨1, 2, 3, 4⟩ 1 = ⟨1, 2, 3, 4⟩ :=
  smoothBoxTransition_endpoints ⟨5, 6, 7, 8⟩ ⟨1, 2, 3, 4⟩ (1/2)
    (by norm_num) (by norm_num)

/-- Claim C2 (amended): rectangles committed through the AutoDetectionBox
clampBox satisfy the declared minimum size MIN_BOX_SIZE on both axes and
lie fully inside the container whenever the container admits the minimum
size under its maximum size fractions; the PreviewScreen constrainCropBox
guarantees only containment of a positive-size box, since it deliberately
enforces no minimum size. -/
theorem committed_box_bounds :
    (∀ x y w h cw ch : ℚ,
        MIN_BOX_SIZE ≤ cw * (0.95 : ℚ) → MIN_BOX_SIZE ≤ ch * (0.4 : ℚ) →
        MIN_BOX_SIZE ≤ (clampBox x y w h cw ch).width
          ∧ MIN_BOX_SIZE ≤ (clampBox x y w h cw ch).height
          ∧ 0 ≤ (clampBox x y w h cw ch).x
          ∧ 0 ≤ (clampBox x y w h cw ch).y
          ∧ (clampBox x y w h cw ch).x + (clampBox x y w h cw ch).width ≤ cw
          ∧ (clampBox x y w h cw ch).y + (clampBox x y w h cw ch).height ≤ ch)
      ∧ (∀ (box : Rect) (cw ch : ℚ), 0 < box.width → 0 < box.height →
          0 < cw → 0 < ch →
          isValidBox (constrainCropBox box cw ch) cw ch = true) := by
  constructor
  · intro x y w h cw ch hcw hch
    simp only [clampBox]
    have hW : max MIN_BOX_SIZE (min w (cw * 0.95)) ≤ cw * 0.95 :=
      max_le hcw (min_le_right _ _)
    have hH : max MIN_BOX_SIZE (min h (ch * 0.4)) ≤ ch * 0.4 :=
      max_le hch (min_le_right _ _)
    have hcw0 : (0:ℚ) ≤ cw := by
      have := MIN_BOX_SIZE
      simp only [MIN_BOX_SIZE] at hcw
      nlinarith
    have hch0 : (0:ℚ) ≤ ch := by
      simp only [MIN_BOX_SIZE] at hch
      nlinarith
    have hXle : max 0 (min x (cw - max MIN_BOX_SIZE (min w (cw * 0.95))))
        ≤ cw - max MIN_BOX_SIZE (min w (cw * 0.95)) :=
      max_le (by nlinarith) (min_le_right _ _)
    have hYle : max 0 (min y (ch - max MIN_BOX_SIZE (min h (ch * 0.4))))
        ≤ ch - max MIN_BOX_SIZE (min h (ch * 0.4)) :=
      max_le (by nlinarith) (min_le_right _ _)
    exact ⟨le_max_left _ _, le_max_left _ _, le_max_left _ _, le_max_left _ _,
      by linarith, by linarith⟩
  · intro box cw ch hw hh hcw hch
    rw [isValidBox_eq_true_iff]
    simp only [constrainCropBox, jsClamp]
    have hWle : min box.width cw ≤ cw := min_le_right _ _
    have hHle : min box.height ch ≤ ch := min_le_right _ _
    have hXle : max 0 (min (cw - min box.width cw) box.x) ≤ cw - min box.width cw :=
      max_le (by linarith) (min_le_left _ _)
    have hYle : max 0 (min (ch - min box.height ch) box.y) ≤ ch - min box.height ch :=
      max_le (by linarith) (min_le_left _ _)
    exact ⟨le_max_left _ _, le_max_left _ _, lt_min hw hcw, lt_min hh hch,
      by linarith, by linarith⟩

/-- Claim C2, counterexample: the PreviewScreen resize responder accepts a
top-left shrink down to its 1 pixel minimum, and the committed rectangle,
even after the container re-clamp through constrainCropBox, has width 1,
far below the declared minimum box size of 80. -/
theorem committed_box_min_size_cex :
    (constrainCropBox (resizeUpdate Handle.TL ⟨0, 0, 300, 150⟩ 299 149 1000 1100)
        1000 1100).width < MIN_BOX_SIZE := by
  norm_num [constrainCropBox, resizeUpdate, jsClamp, MIN_BOX_SIZE, min_def, max_def]

/-- Witness instantiating committed_box_bounds at a concrete box and a
1000 by 1100 container. -/
theorem committed_box_bounds_witness :
    MIN_BOX_SIZE ≤ (clampBox 5 7 30 900 1000 1100).width
      ∧ MIN_BOX_SIZE ≤ (clampBox 5 7 30 900 1000 1100).height
      ∧ 0 ≤ (clampBox 5 7 30 900 1000 1100).x
      ∧ 0 ≤ (clampBox 5 7 30 900 1000 1100).y
      ∧ (clampBox 5 7 30 900 1000 1100).x + (clampBox 5 7 30 900 1000 1100).width ≤ 1000
      ∧ (clampBox 5 7 30 900 1000 1100).y + (clampBox 5 7 30 900 1000 1100).height ≤ 1100
      ∧ isValidBox (constrainCropBox ⟨5, 7, 30, 900⟩ 1000 1100) 1000 1100 = true := by
  have h1 := committed_box_bounds.1 5 7 30 900 1000 1100 (by norm_num [MIN_BOX_SIZE])
    (by norm_num [MIN_BOX_SIZE])
  have h2 := committed_box_bounds.2 ⟨5, 7, 30, 900⟩ 1000 1100 (by norm_num) (by norm_num)
    (by norm_num) (by norm_num)
  exact ⟨h1.1, h1.2.1, h1.2.2.1, h1.2.2.2.1, h1.2.2.2.2.1, h1.2.2.2.2.2, h2⟩

/-- Claim C3 (amended): the PreviewScreen resize responder never moves the
anchor corner opposite the active handle, for every start rectangle,
translation and container; the scenario of a top-left resize by dx 20,
dy 10 on the rectangle x 100 y 200 width 300 height 150 yields x 120
y 210 width 280 height 140 under both the PreviewScreen responder and the
AutoDetectionBox corner gesture; the clamped AutoDetectionBox corner
gesture, however, can move the anchor when its size clamps engage. -/
theorem resize_anchor_preserved :
    (∀ (start : Rect) (dx dy cw ch : ℚ),
        ((resizeUpdate Handle.TL start dx dy cw ch).x
              + (resizeUpdate Handle.TL start dx dy cw ch).width = start.x + start.width
          ∧ (resizeUpdate Handle.TL start dx dy cw ch).y
              + (resizeUpdate Handle.TL start dx dy cw ch).height = start.y + start.height)
        ∧ ((resizeUpdate Handle.TR start dx dy cw ch).x = start.x
          ∧ (resizeUpdate Handle.TR start dx dy cw ch).y
              + (resizeUpdate Handle.TR start dx dy cw ch).height = start.y + start.height)
        ∧ ((resizeUpdate Handle.BL start dx dy cw ch).x
              + (resizeUpdate Handle.BL start dx dy cw ch).width = start.x + start.width
          ∧ (resizeUpdate Handle.BL start dx dy cw ch).y = start.y)
        ∧ ((resizeUpdate Handle.BR start dx dy cw ch).x = start.x
          ∧ (resizeUpdate Handle.BR start dx dy cw ch).y = start.y))
      ∧ resizeUpdate Handle.TL ⟨100, 200, 300, 150⟩ 20 10 1000 2000 = ⟨120, 210, 280, 140⟩
      ∧ cornerGestureUpdate Handle.TL ⟨100, 200, 300, 150⟩ 20 10 1000 2000
          = ⟨120, 210, 280, 140⟩ := by
  refine ⟨?_, ?_, ?_⟩
  · intro start dx dy cw ch
    refine ⟨⟨?_, ?_⟩, ⟨?_, ?_⟩, ⟨?_, ?_⟩, ⟨?_, ?_⟩⟩ <;>
      simp only [resizeUpdate] <;> split_ifs <;> simp <;> ring
  · norm_num [resizeUpdate, jsClamp, Rect.mk.injEq]
  · norm_num [cornerGestureUpdate, clampBox, MIN_BOX_SIZE, min_def, max_def, Rect.mk.injEq]

/-- Claim C3, counterexample: a large top-left drag through the
AutoDetectionBox corner gesture triggers the minimum-size clamp and moves
the bottom-right anchor from 400 to 430. -/
theorem resize_anchor_cex :
    ¬ ((cornerGestureUpdate Handle.TL ⟨100, 200, 300, 150⟩ 250 0 1000 1000).x
        + (cornerGestureUpdate Handle.TL ⟨100, 200, 300, 150⟩ 250 0 1000 1000).width
        = 100 + 300) := by
  norm_num [cornerGestureUpdate, clampBox, MIN_BOX_SIZE, min_def, max_def]

/-- Claim C6: a drag update computes the gesture-start position plus the
cumulative translation, clamps both axes so the rectangle stays inside
the container, and leaves width and height unchanged; this holds for the
PreviewScreen drag responder for any start box fitting the container and
for the AutoDetectionBox pan gesture for any start box within its maximum
size fractions; dragging the rectangle x 100 y 200 width 300 height 150
by dx 50, dy -20 in a 1000 by 2000 container yields x 150 y 180 width 300
height 150 in both implementations. -/
theorem dragUpdate_contract :
    (∀ (start : Rect) (dx dy cw ch : ℚ),
        0 < start.width → 0 < start.height → start.width ≤ cw → start.height ≤ ch →
        isValidBox (dragUpdate start dx dy cw ch) cw ch = true
          ∧ (dragUpdate start dx dy cw ch).x = jsClamp (start.x + dx) 0 (cw - start.width)
          ∧ (dragUpdate start dx dy cw ch).y = jsClamp (start.y + dy) 0 (ch - start.height)
          ∧ (dragUpdate start dx dy cw ch).width = start.width
          ∧ (dragUpdate start dx dy cw ch).height = start.height)
      ∧ (∀ (start : Rect) (tx ty cw ch : ℚ),
          0 < start.width → 0 < start.height → 0 < cw → 0 < ch →
          start.width ≤ cw * (0.95 : ℚ) → start.height ≤ ch * (0.4 : ℚ) →
          isValidBox (panGestureUpdate start tx ty cw ch) cw ch = true
            ∧ (panGestureUpdate start tx ty cw ch).width = start.width
            ∧ (panGestureUpdate start tx ty cw ch).height = start.height)
      ∧ dragUpdate ⟨100, 200, 300, 150⟩ 50 (-20) 1000 2000 = ⟨150, 180, 300, 150⟩
      ∧ panGestureUpdate ⟨100, 200, 300, 150⟩ 50 (-20) 1000 2000
          = ⟨150, 180, 300, 150⟩ := by
  refine ⟨?_, ?_, ?_, ?_⟩
  · intro start dx dy cw ch hw hh hwle hhle
    refine ⟨?_, rfl, rfl, rfl, rfl⟩
    rw [isValidBox_eq_true_iff]
    simp only [dragUpdate, jsClamp]
    have hX : max 0 (min (cw - start.width) (start.x + dx)) ≤ cw - start.width :=
      max_le (by linarith) (min_le_left _ _)
    have hY : max 0 (min (ch - start.height) (start.y + dy)) ≤ ch - start.height :=
      max_le (by linarith) (min_le_left _ _)
    exact ⟨le_max_left _ _, le_max_left _ _, hw, hh, by linarith, by linarith⟩
  · intro start tx ty cw ch hw hh hcw hch hw95 hh40
    refine ⟨?_, rfl, rfl⟩
    rw [isValidBox_eq_true_iff]
    simp only [panGestureUpdate, clampBox]
    have hWmin : min start.width (cw * 0.95) = start.width := min_eq_left hw95
    have hHmin : min start.height (ch * 0.4) = start.height := min_eq_left hh40
    have hWge : start.width ≤ max MIN_BOX_SIZE (min start.width (cw * 0.95)) := by
      rw [hWmin]
      exact le_max_right _ _
    have hHge : start.height ≤ max MIN_BOX_SIZE (min start.height (ch * 0.4)) := by
      rw [hHmin]
      exact le_max_right _ _
    have hXle : max 0 (min (start.x + tx) (cw - max MIN_BOX_SIZE (min start.width (cw * 0.95))))
        ≤ max 0 (cw - start.width) :=
      max_le (le_max_left _ _)
        (le_trans (min_le_right _ _) (le_trans (by linarith) (le_max_right _ _)))
    have hYle : max 0 (min (start.y + ty) (ch - max MIN_BOX_SIZE (min start.height (ch * 0.4))))
        ≤ max 0 (ch - start.height) :=
      max_le (le_max_left _ _)
        (le_trans (min_le_right _ _) (le_trans (by linarith) (le_max_right _ _)))
    have hXcw : max 0 (cw - start.width) + start.width ≤ cw := by
      rcases le_total (cw - start.width) 0 with hc | hc
      · rw [max_eq_left hc]
        linarith
      · rw [max_eq_right hc]
        linarith
    have hYch : max 0 (ch - start.height) + start.height ≤ ch := by
      rcases le_total (ch - start.height) 0 with hc | hc
      · rw [max_eq_left hc]
        linarith
      · rw [max_eq_right hc]
        linarith
    exact ⟨le_max_left _ _, le_max_left _ _, hw, hh, by linarith, by linarith⟩
  · norm_num [dragUpdate, jsClamp, Rect.mk.injEq]
  · norm_num [panGestureUpdate, clampBox, MIN_BOX_SIZE, jsClamp, min_def, max_def,
      Rect.mk.injEq]

/-- Witness instantiating dragUpdate_contract at the scenario rectangle
and container. -/
theorem dragUpdate_contract_witness :
    isValidBox (dragUpdate ⟨100, 200, 300, 150⟩ 50 (-20) 1000 2000) 1000 2000 = true
      ∧ isValidBox (panGestureUpdate ⟨100, 200, 300, 150⟩ 50 (-20) 1000 2000)
          1000 2000 = true :=
  ⟨(dragUpdate_contract.1 ⟨100, 200, 300, 150⟩ 50 (-20) 1000 2000
      (by norm_num) (by norm_num) (by norm_num) (by norm_num)).1,
   (dragUpdate_contract.2.1 ⟨100, 200, 300, 150⟩ 50 (-20) 1000 2000
      (by norm_num) (by norm_num) (by norm_num) (by norm_num)
      (by norm_num) (by norm_num)).1⟩

/-- Math.round never exceeds its argument by more than one half. -/
theorem jsRound_le (q : ℚ) : (jsRound q : ℚ) ≤ q + 1/2 := Int.floor_le _

/-- Math.round never falls short of its argument by one half or more. -/
theorem lt_jsRound (q : ℚ) : q - 1/2 < (jsRound q : ℚ) := by
  have h := Int.lt_floor_add_one (q + 1/2)
  simp only [jsRound]
  push_cast
  linarith

/-- Scaling a coordinate by a ratio of at least one, rounding, scaling
back by the inverse ratio and rounding again lands within one unit of the
original coordinate. -/
theorem jsRound_roundtrip_le_one (x fw tw : ℚ) (hfw : 0 < fw) (htw : fw ≤ tw) :
    |((jsRound ((jsRound (x * (tw / fw)) : ℚ) * (fw / tw)) : ℚ)) - x| ≤ 1 := by
  have htw0 : (0:ℚ) < tw := lt_of_lt_of_le hfw htw
  have hinvle : fw / tw ≤ 1 := (div_le_one htw0).mpr htw
  have hinv0 : (0:ℚ) < fw / tw := div_pos hfw htw0
  have hss : (tw / fw) * (fw / tw) = 1 := by
    field_simp
  have ha1 : (jsRound (x * (tw / fw)) : ℚ) ≤ x * (tw / fw) + 1/2 := jsRound_le _
  have ha2 : x * (tw / fw) - 1/2 < (jsRound (x * (tw / fw)) : ℚ) := lt_jsRound _
  have hb1 : (jsRound (x * (tw / fw)) : ℚ) * (fw / tw) ≤ x + (fw / tw) * (1/2) := by
    calc (jsRound (x * (tw / fw)) : ℚ) * (fw / tw)
        ≤ (x * (tw / fw) + 1/2) * (fw / tw) :=
          mul_le_mul_of_nonneg_right ha1 (le_of_lt hinv0)
      _ = x * ((tw / fw) * (fw / tw)) + (fw / tw) * (1/2) := by ring
      _ = x + (fw / tw) * (1/2) := by rw [hss]; ring
  have hb2 : x - (fw / tw) * (1/2) < (jsRound (x * (tw / fw)) : ℚ) * (fw / tw) := by
    calc x - (fw / tw) * (1/2)
        = x * ((tw / fw) * (fw / tw)) - (fw / tw) * (1/2) := by rw [hss]; ring
      _ = (x * (tw / fw) - 1/2) * (fw / tw) := by ring
      _ < (jsRound (x * (tw / fw)) : ℚ) * (fw / tw) :=
          mul_lt_mul_of_pos_right ha2 hinv0
  have hc1 := jsRound_le ((jsRound (x * (tw / fw)) : ℚ) * (fw / tw))
  have hc2 := lt_jsRound ((jsRound (x * (tw / fw)) : ℚ) * (fw / tw))
  rw [abs_le]
  constructor <;> linarith

/-- Claim C1 (amended): mapping a rectangle lying inside
[0,fromW]x[0,fromH] into a destination space at least as large on each
axis and back through the coordinate mapper changes every field by at
most one unit. For a strictly smaller destination the rounding loss can
exceed one unit (see the counterexample), so the scale condition on each
axis is required in addition to positivity. -/
theorem mapRect_roundtrip_within_one (r : Rect) (fromW fromH toW toH : ℚ)
    (hfw : 0 < fromW) (hfh : 0 < fromH) (htw : fromW ≤ toW) (hth : fromH ≤ toH)
    (hx0 : 0 ≤ r.x) (hy0 : 0 ≤ r.y)
    (hxw : r.x + r.width ≤ fromW) (hyh : r.y + r.height ≤ fromH) :
    |(((mapScreenRectToImage (mapScreenRectToImage r fromW fromH toW toH).toRect
          toW toH fromW fromH).originX : ℚ) - r.x)| ≤ 1
      ∧ |(((mapScreenRectToImage (mapScreenRectToImage r fromW fromH toW toH).toRect
          toW toH fromW fromH).originY : ℚ) - r.y)| ≤ 1
      ∧ |(((mapScreenRectToImage (mapScreenRectToImage r fromW fromH toW toH).toRect
          toW toH fromW fromH).width : ℚ) - r.width)| ≤ 1
      ∧ |(((mapScreenRectToImage (mapScreenRectToImage r fromW fromH toW toH).toRect
          toW toH fromW fromH).height : ℚ) - r.height)| ≤ 1 := by
  simp only [mapScreenRectToImage, CropRect.toRect]
  exact ⟨jsRound_roundtrip_le_one r.x fromW toW hfw htw,
    jsRound_roundtrip_le_one r.y fromH toH hfh hth,
    jsRound_roundtrip_le_one r.width fromW toW hfw htw,
    jsRound_roundtrip_le_one r.height fromH toH hfh hth⟩

/-- Claim C1, counterexample: with the positive dimensions fromW = fromH =
100 and toW = toH = 1 the rectangle x 49 y 0 width 1 height 1 lies fully
inside [0,100]x[0,100], yet the round trip returns origin x 0, which
differs from 49 by more than one unit. -/
theorem mapRect_roundtrip_cex :
    ((0:ℚ) < 100 ∧ (0:ℚ) < 1 ∧ (0:ℚ) ≤ 49 ∧ (49:ℚ) + 1 ≤ 100)
      ∧ ¬ (|(((mapScreenRectToImage
          (mapScreenRectToImage ⟨49, 0, 1, 1⟩ 100 100 1 1).toRect
          1 1 100 100).originX : ℚ) - 49)| ≤ 1) := by
  refine ⟨by norm_num, ?_⟩
  intro h
  rw [abs_le] at h
  have h1 := h.1
  norm_num [mapScreenRectToImage, CropRect.toRect, jsRound] at h1

/-- Witness instantiating mapRect_roundtrip_within_one on a concrete
rectangle mapped from a 100 by 100 space into a 200 by 300 space. -/
theorem mapRect_roundtrip_within_one_witness :
    |(((mapScreenRectToImage (mapScreenRectToImage ⟨3, 4, 5, 6⟩ 100 100 200 300).toRect
          200 300 100 100).originX : ℚ) - 3)| ≤ 1
      ∧ |(((mapScreenRectToImage (mapScreenRectToImage ⟨3, 4, 5, 6⟩ 100 100 200 300).toRect
          200 300 100 100).originY : ℚ) - 4)| ≤ 1
      ∧ |(((mapScreenRectToImage (mapScreenRectToImage ⟨3, 4, 5, 6⟩ 100 100 200 300).toRect
          200 300 100 100).width : ℚ) - 5)| ≤ 1
      ∧ |(((mapScreenRectToImage (mapScreenRectToImage ⟨3, 4, 5, 6⟩ 100 100 200 300).toRect
          200 300 100 100).height : ℚ) - 6)| ≤ 1 :=
  mapRect_roundtrip_within_one ⟨3, 4, 5, 6⟩ 100 100 200 300
    (by norm_num) (by norm_num) (by norm_num) (by norm_num)
    (by norm_num) (by norm_num) (by norm_num) (by norm_num)

/-- The crop rectangle construction of onCapture in
src/src/screens/CameraScreen.tsx lines 168-231: the screen box is mapped
into photo pixels through the aspect-fill scale and offset, rounded,
clamped into the photo bounds, and the crop is performed only when both
dimensions are positive (modelled as some versus none). -/
def cameraCropRect (box : Rect) (screenW screenH : ℚ)
    (photoWidth photoHeight : ℤ) : Option CropRect :=
  let photoAspect : ℚ := (photoWidth : ℚ) / (photoHeight : ℚ)
  let previewAspect : ℚ := screenW / screenH
  let scaleX : ℚ :=
    if previewAspect < photoAspect then (photoHeight : ℚ) / screenH
    else (photoWidth : ℚ) / screenW
  let scaleY : ℚ := scaleX
  let offsetX : ℚ :=
    if previewAspect < photoAspect then ((photoWidth : ℚ) - screenW * scaleX) / 2 else 0
  let offsetY : ℚ :=
    if previewAspect < photoAspect then 0 else ((photoHeight : ℚ) - screenH * scaleY) / 2
  let originX0 := jsRound (box.x * scaleX + offsetX)
  let originY0 := jsRound (box.y * scaleY + offsetY)
  let width0 := jsRound (box.width * scaleX)
  let height0 := jsRound (box.height * scaleY)
  let originX1 := max 0 (min originX0 (photoWidth - width0))
  let originY1 := max 0 (min originY0 (photoHeight - height0))
  let width1 := min width0 (photoWidth - originX1)
  let height1 := min height0 (photoHeight - originY1)
  if 0 < width1 ∧ 0 < height1 then some ⟨originX1, originY1, width1, height1⟩ else none

/-- The crop rectangle construction of cropAsync in
src/unnamed/part_005 lines 417-524: the container box is translated by
the aspect-fit offset, scaled into photo pixels, rounded, clamped, raised
to at least 1 pixel, shrunk again when it still overflows, and the crop
call is made only when the final validation (positive size, nonnegative
origin) passes (modelled as some versus none, with a throw on validation
failure caught as the fallback path). -/
def previewCropRect (cropBox : Rect) (layoutW layoutH : ℚ)
    (photoWidth photoHeight : ℤ) : Option CropRect :=
  let photoAspect : ℚ := (photoWidth : ℚ) / (photoHeight : ℚ)
  let containerAspect : ℚ := layoutW / layoutH
  let displayedImageWidth : ℚ :=
    if containerAspect < photoAspect then layoutW else layoutH * photoAspect
  let displayedImageHeight : ℚ :=
    if containerAspect < photoAspect then layoutW / photoAspect else layoutH
  let imageOffsetX : ℚ :=
    if containerAspect < photoAspect then 0 else (layoutW - displayedImageWidth) / 2
  let imageOffsetY : ℚ :=
    if containerAspect < photoAspect then (layoutH - displayedImageHeight) / 2 else 0
  let scaleX := (photoWidth : ℚ) / displayedImageWidth
  let scaleY := (photoHeight : ℚ) / displayedImageHeight
  let adjustedX := cropBox.x - imageOffsetX
  let adjustedY := cropBox.y - imageOffsetY
  let photoX := max 0 (jsRound (adjustedX * scaleX))
  let photoY := max 0 (jsRound (adjustedY * scaleY))
  let photoW0 := jsRound (cropBox.width * scaleX)
  let photoH0 := jsRound (cropBox.height * scaleY)
  let photoW1 := max 1 (min photoW0 (photoWidth - photoX))
  let photoH1 := max 1 (min photoH0 (photoHeight - photoY))
  let overflow := photoWidth < photoX + photoW1 ∨ photoHeight < photoY + photoH1
  let photoW2 := if overflow then min photoW1 (photoWidth - photoX - 1) else photoW1
  let photoH2 := if overflow then min photoH1 (photoHeight - photoY - 1) else photoH1
  if photoW2 ≤ 0 ∨ photoH2 ≤ 0 then none
  else if photoX < 0 ∨ photoY < 0 then none
  else some ⟨photoX, photoY, photoW2, photoH2⟩

/-- Claim C4: every crop rectangle actually handed to the external crop
operation, by either capture path, has integer fields (by the type of
CropRect), strictly positive width and height, nonnegative origin, and
origin plus size within the source photo bounds. -/
theorem crop_rect_safe :
    (∀ (box : Rect) (sw sh : ℚ) (pw ph : ℤ), 0 < pw → 0 < ph →
        ∀ c, cameraCropRect box sw sh pw ph = some c →
          0 < c.width ∧ 0 < c.height ∧ 0 ≤ c.originX ∧ 0 ≤ c.originY
            ∧ c.originX + c.width ≤ pw ∧ c.originY + c.height ≤ ph)
      ∧ (∀ (box : Rect) (lw lh : ℚ) (pw ph : ℤ), 0 < pw → 0 < ph →
          ∀ c, previewCropRect box lw lh pw ph = some c →
            0 < c.width ∧ 0 < c.height ∧ 0 ≤ c.originX ∧ 0 ≤ c.originY
              ∧ c.originX + c.width ≤ pw ∧ c.originY + c.height ≤ ph) := by
  constructor
  · intro box sw sh pw ph hpw hph c h
    simp only [cameraCropRect] at h
    split_ifs at h <;> first
      | exact Option.noConfusion h
      | (injection h with h2
         subst h2
         dsimp only
         refine ⟨?_, ?_, ?_, ?_, ?_, ?_⟩ <;> omega)
  · intro box lw lh pw ph hpw hph c h
    simp only [previewCropRect] at h
    split_ifs at h <;> first
      | exact Option.noConfusion h
      | (injection h with h2
         subst h2
         dsimp only
         refine ⟨?_, ?_, ?_, ?_, ?_, ?_⟩ <;> omega)

/-- Witness instantiating crop_rect_safe: both capture paths applied to
the box x 0 y 0 width 100 height 100 on a 100 by 200 screen and a 1000 by
2000 photo produce the full-photo-width crop rectangle, which satisfies
every safety property. -/
theorem crop_rect_safe_witness :
    (0 < ((⟨0, 0, 1000, 1000⟩ : CropRect)).width
        ∧ 0 < ((⟨0, 0, 1000, 1000⟩ : CropRect)).height
        ∧ 0 ≤ ((⟨0, 0, 1000, 1000⟩ : CropRect)).originX
        ∧ 0 ≤ ((⟨0, 0, 1000, 1000⟩ : CropRect)).originY
        ∧ ((⟨0, 0, 1000, 1000⟩ : CropRect)).originX
            + ((⟨0, 0, 1000, 1000⟩ : CropRect)).width ≤ 1000
        ∧ ((⟨0, 0, 1000, 1000⟩ : CropRect)).originY
            + ((⟨0, 0, 1000, 1000⟩ : CropRect)).height ≤ 2000)
      ∧ (0 < ((⟨0, 0, 1000, 1000⟩ : CropRect)).width
        ∧ 0 < ((⟨0, 0, 1000, 1000⟩ : CropRect)).height
        ∧ 0 ≤ ((⟨0, 0, 1000, 1000⟩ : CropRect)).originX
        ∧ 0 ≤ ((⟨0, 0, 1000, 1000⟩ : CropRect)).originY
        ∧ ((⟨0, 0, 1000, 1000⟩ : CropRect)).originX
            + ((⟨0, 0, 1000, 1000⟩ : CropRect)).width ≤ 1000
        ∧ ((⟨0, 0, 1000, 1000⟩ : CropRect)).originY
            + ((⟨0, 0, 1000, 1000⟩ : CropRect)).height ≤ 2000) :=
  ⟨crop_rect_safe.1 ⟨0, 0, 100, 100⟩ 100 200 1000 2000 (by norm_num) (by norm_num)
      ⟨0, 0, 1000, 1000⟩
      (by norm_num [cameraCropRect, jsRound, CropRect.mk.injEq, min_def, max_def]),
   crop_rect_safe.2 ⟨0, 0, 100, 100⟩ 100 200 1000 2000 (by norm_num) (by norm_num)
      ⟨0, 0, 1000, 1000⟩
      (by norm_num [previewCropRect, jsRound, CropRect.mk.injEq, min_def, max_def])⟩

/-- Vertical position weight of a grid row in analyzeTextDensity
(src/unnamed/part_001 lines 149-159): zero outside the band from 22 to 42
percent of the height, a sharp peak around 32 percent inside it. -/
def vDensityAt (row : ℕ) : ℚ :=
  let verticalPos : ℚ := (row : ℚ) / 40
  if (0.22 : ℚ) ≤ verticalPos ∧ verticalPos ≤ (0.42 : ℚ) then
    max 0 (1 - |(0.32 : ℚ) - verticalPos| * 15)
  else 0

/-- Horizontal position weight of a grid column (src/unnamed/part_001
lines 161-165): zero outside 10 to 90 percent, a centered ramp inside. -/
def hDensityAt (col : ℕ) : ℚ :=
  let horizontalPos : ℚ := (col : ℚ) / 30
  if (0.10 : ℚ) ≤ horizontalPos ∧ horizontalPos ≤ (0.90 : ℚ) then
    1 - |(0.5 : ℚ) - horizontalPos| * (1.2 : ℚ)
  else 0

/-- Density of one grid cell (src/unnamed/part_001 line 167): the product
of the two positional weights, floored at zero. The cell value never
inspects image pixels. -/
def cellDensity (row col : ℕ) : ℚ := max 0 (vDensityAt row * hDensityAt col)

/-- Maximum density over the 40 by 30 grid (src/unnamed/part_001
line 173). Every cell density is nonnegative, so folding max from zero
agrees with the maximum of the flattened grid. -/
def maxCellDensity : ℚ :=
  ((List.range 40).map fun row =>
    ((List.range 30).map fun col => cellDensity row col).foldl max 0).foldl max 0

/-- Detection threshold (src/unnamed/part_001 line 174): a fifth of the
maximum cell density. -/
def densityThreshold : ℚ := maxCellDensity * (0.20 : ℚ)

/-- Average density of a grid row (src/unnamed/part_001 line 179). -/
def rowDensity (row : ℕ) : ℚ :=
  (((List.range 30).map fun col => cellDensity row col).foldl (fun s v => s + v) 0) / 30

/-- Average density of a grid column (src/unnamed/part_001 line 201). -/
def colDensity (col : ℕ) : ℚ :=
  (((List.range 40).map fun row => cellDensity row col).foldl (fun s v => s + v) 0) / 40

/-- Top boundary scan (src/unnamed/part_001 lines 177-184): the first row
in [6, 24) whose average density exceeds the threshold, floored at zero as
in the source, or the start row 6 when no row qualifies. -/
def topBoundary : ℕ :=
  match (List.range' 6 18).find? (fun row => decide (densityThreshold < rowDensity row)) with
  | some row => max 0 row
  | none => 6

/-- Bottom boundary scan (src/unnamed/part_001 lines 187-196): starting
from top plus 4, each scanned row up to min (top + 6) 39 extends the
boundary while above threshold, and the scan stops at the first quiet row
past top plus 2. The fold state carries the boundary and the stop flag. -/
def bottomBoundary (top : ℕ) : ℕ :=
  let upper := min (top + 6) 39
  ((List.range' (top + 1) (upper - top)).foldl
    (fun st row =>
      if st.2 then st
      else if densityThreshold < rowDensity row then (row, false)
      else if top + 2 < row then (st.1, true)
      else st)
    (top + 4, false)).1

/-- Left boundary scan (src/unnamed/part_001 lines 199-206): one column
before the first column above threshold (the floor at zero of the source
is the truncated subtraction), or zero when no column qualifies. -/
def leftBoundary : ℕ :=
  match (List.range 30).find? (fun col => decide (densityThreshold < colDensity col)) with
  | some col => col - 1
  | none => 0

/-- Right boundary scan (src/unnamed/part_001 lines 209-216): scanning
from column 29 down to the left boundary, one column after the first
column above threshold, capped at 29, or 29 when none qualifies. -/
def rightBoundary (left : ℕ) : ℕ :=
  match ((List.range 30).reverse.filter (fun col => decide (left ≤ col))).find?
      (fun col => decide (densityThreshold < colDensity col)) with
  | some col => min 29 (col + 1)
  | none => 29

/-- Height cap (src/unnamed/part_001 lines 219-224): when the detected
band exceeds 12 percent of the grid rows, the bottom boundary is pulled
back to the top boundary plus the floor of 4.8. -/
def limitRows (top bottom : ℕ) : ℕ :=
  if (40 : ℚ) * (0.12 : ℚ) < ((bottom - top + 1 : ℕ) : ℚ) then
    top + Nat.floor ((40 : ℚ) * (0.12 : ℚ))
  else bottom

/-- Width cap (src/unnamed/part_001 lines 227-247): when the detected
columns exceed the allowed 34 percent of the grid columns (10 columns,
so the truncated subtractions below agree with the floors at zero of the
source), the band is re-centered at its midpoint and clipped, and shifted
left when it hits the right edge. -/
def limitCols (left right : ℕ) : ℕ × ℕ :=
  let detectedCols := right - left + 1
  let maxAllowedCols := Nat.floor ((30 : ℚ) * (0.34 : ℚ))
  if maxAllowedCols < detectedCols then
    let center := (left + right) / 2
    let halfWidth := maxAllowedCols / 2
    let left1 := center - halfWidth
    let right1 := min 29 (left1 + maxAllowedCols - 1)
    if 29 ≤ right1 then (29 - maxAllowedCols + 1, 29)
    else (left1, right1)
  else (left, right)

/-- Height of the downsampled analysis canvas (src/unnamed/part_001
line 124): proportional to the image aspect at analysis width 200. -/
def analysisHeightOf (imageWidth imageHeight : ℚ) : ℤ :=
  jsRound (imageHeight / imageWidth * 200)

/-- The deterministic computation of analyzeTextDensity
(src/unnamed/part_001 lines 122-308) after the downsampling call: grid
boundaries from the positional density map, conversion to analysis-canvas
pixels, scaling into image space, 2 percent padding, clamping into the
image, conversion to screen coordinates, and the fixed output height of
35 pixels. Image pixel content never enters this computation. -/
def analyzeTextDensityCore (imageWidth imageHeight screenWidth screenHeight : ℚ) : Rect :=
  let analysisHeight : ℚ := (analysisHeightOf imageWidth imageHeight : ℚ)
  let cellWidth : ℚ := 200 / 30
  let cellHeight : ℚ := analysisHeight / 40
  let top := topBoundary
  let bottom := limitRows top (bottomBoundary top)
  let lr := limitCols leftBoundary (rightBoundary leftBoundary)
  let detectedX := (lr.1 : ℚ) * cellWidth
  let detectedY := (top : ℚ) * cellHeight
  let detectedWidth := ((lr.2 : ℚ) - (lr.1 : ℚ)) * cellWidth
  let detectedHeight := ((bottom : ℚ) - (top : ℚ)) * cellHeight
  let scaleX := imageWidth / 200
  let scaleY := imageHeight / analysisHeight
  let imageX := detectedX * scaleX
  let imageY := detectedY * scaleY
  let imageW := detectedWidth * scaleX
  let imageH := detectedHeight * scaleY
  let screenScaleX := screenWidth / imageWidth
  let screenScaleY := screenHeight / imageHeight
  let paddingX := imageW * (0.02 : ℚ)
  let paddingY := imageH * (0.02 : ℚ)
  let tightX := max 0 (imageX - paddingX)
  let tightY := max 0 (imageY - paddingY)
  let tightW := min (imageW + paddingX * 2) (imageWidth - tightX)
  let tightH := min (imageH + paddingY * 2) (imageHeight - tightY)
  let finalX := max 0 (min tightX (imageWidth - tightW))
  let finalY := max 0 (min tightY (imageHeight - tightH))
  ⟨finalX * screenScaleX, finalY * screenScaleY, tightW * screenScaleX, 35⟩

/-- analyzeTextDensity (src/unnamed/part_001 lines 112-313): the only
input-dependent and fallible step is the external downsampling call,
modelled as an oracle on an abstract image type; a failure is caught and
surfaced as none (null in the source), and a success yields the purely
positional core result. -/
def analyzeTextDensityRun {Image : Type} (manipulate : Image → Option Image)
    (imageUri : Image) (imageWidth imageHeight screenWidth screenHeight : ℚ) :
    Option Rect :=
  match manipulate imageUri with
  | none => none
  | some _ => some (analyzeTextDensityCore imageWidth imageHeight screenWidth screenHeight)

/-- The vertical placement choices of detectTextArea
(src/unnamed/part_001 lines 55-67). -/
inductive VerticalPosition where
  | top
  | center
  | upperCenter
deriving DecidableEq, Repr

/-- Options of detectTextArea (src/unnamed/part_001 lines 26-40). -/
structure TextAreaOptions where
  topOffset : ℚ
  bottomOffset : ℚ
  widthRatio : ℚ
  heightRatio : ℚ
  verticalPosition : VerticalPosition

/-- detectTextArea of src/unnamed/part_001 lines 23-75: a box of
widthRatio of the screen width, height capped at half the screen width,
centered horizontally, vertically placed in the document area between the
top and bottom offsets. -/
def detectTextArea (screenWidth screenHeight : ℚ) (o : TextAreaOptions) : Rect :=
  let documentTop := o.topOffset
  let documentBottom := screenHeight - o.bottomOffset
  let documentHeight := documentBottom - documentTop
  let cropWidth := screenWidth * o.widthRatio
  let cropHeight := min (documentHeight * o.heightRatio) (screenWidth * (0.5 : ℚ))
  let cropX := (screenWidth - cropWidth) / 2
  let cropY :=
    match o.verticalPosition with
    | VerticalPosition.top => documentTop + documentHeight * (0.05 : ℚ)
    | VerticalPosition.center => documentTop + (documentHeight - cropHeight) / 2
    | VerticalPosition.upperCenter => documentTop + documentHeight * (0.15 : ℚ)
  ⟨cropX, cropY, cropWidth, cropHeight⟩

/-- The crop choice of onCapture in src/unnamed/part_006 lines 58-87: the
density estimator result when present, otherwise the heuristic
detectTextArea with the explicit options of lines 75-81. -/
def captureCropChoice (densityResult : Option Rect) (screenWidth screenHeight : ℚ) : Rect :=
  match densityResult with
  | some r => r
  | none => detectTextArea screenWidth screenHeight
      ⟨120, 120, 0.85, 0.4, VerticalPosition.upperCenter⟩

/-- Claim C5: the density region estimator output is independent of image
pixel content: two successful runs, possibly on different images and
through different image-processing behaviors, with the same source
dimensions and the same target dimensions return the identical rectangle,
because every cell density is a function of grid position only. -/
theorem analyzeTextDensity_content_independent {I J : Type}
    (m1 : I → Option I) (m2 : J → Option J) (img1 : I) (img2 : J)
    (iw ih sw sh : ℚ) (r1 r2 : Rect)
    (h1 : analyzeTextDensityRun m1 img1 iw ih sw sh = some r1)
    (h2 : analyzeTextDensityRun m2 img2 iw ih sw sh = some r2) :
    r1 = r2 := by
  unfold analyzeTextDensityRun at h1 h2
  cases hm1 : m1 img1 <;> rw [hm1] at h1
  · exact Option.noConfusion h1
  · cases hm2 : m2 img2 <;> rw [hm2] at h2
    · exact Option.noConfusion h2
    · injection h1 with e1
      injection h2 with e2
      rw [← e1, ← e2]

/-- Witness instantiating analyzeTextDensity_content_independent on two
trivially succeeding runs at a 1000 by 2000 image and 100 by 200 target. -/
theorem analyzeTextDensity_content_independent_witness :
    analyzeTextDensityCore 1000 2000 100 200 = analyzeTextDensityCore 1000 2000 100 200 :=
  analyzeTextDensity_content_independent (fun u : Unit => some u) (fun u : Unit => some u)
    () () 1000 2000 100 200 _ _ rfl rfl

/-- Claim C8: the density estimator surfaces an image-processing failure
as none (null in the source) rather than an exception or an invalid
rectangle, and the capture caller then still produces a valid crop
rectangle from the heuristic fallback, for any screen wider than zero and
taller than the 240 pixels of fixed offsets. -/
theorem density_failure_fallback :
    (∀ {I : Type} (m : I → Option I) (img : I) (iw ih sw sh : ℚ),
        m img = none → analyzeTextDensityRun m img iw ih sw sh = none)
      ∧ (∀ sw sh : ℚ, 0 < sw → 240 < sh →
          isValidBox (captureCropChoice none sw sh) sw sh = true) := by
  constructor
  · intro I m img iw ih sw sh hm
    unfold analyzeTextDensityRun
    rw [hm]
  · intro sw sh hsw hsh
    rw [isValidBox_eq_true_iff]
    simp only [captureCropChoice, detectTextArea]
    have hmin : min ((sh - 120 - 120) * (0.4 : ℚ)) (sw * (0.5 : ℚ)) ≤ (sh - 120 - 120) * (0.4 : ℚ) :=
      min_le_left _ _
    refine ⟨by linarith, by linarith, by linarith,
      lt_min (by linarith) (by linarith), by linarith, by linarith⟩

/-- Witness instantiating density_failure_fallback on a failing oracle and
a 400 by 800 screen. -/
theorem density_failure_fallback_witness :
    analyzeTextDensityRun (fun _ : Unit => none) () 1000 2000 100 200 = none
      ∧ isValidBox (captureCropChoice none 400 800) 400 800 = true :=
  ⟨density_failure_fallback.1 (fun _ : Unit => none) () 1000 2000 100 200 rfl,
   density_failure_fallback.2 400 800 (by norm_num) (by norm_num)⟩

end ScanCrop
